import Mathlib

/-!
Shallow embedding of `flask_sse.py` (flask-sse 0.2.1): the `Message` value
type, the `messages` / `blocks` generators of the two blueprint classes, the
`stream` view functions, and the `done_streaming` termination check.

Conventions of the embedding:
* Python `None` becomes `Option.none`; Python truthiness of the values this
  module branches on is modelled by the explicit `pyTruthy*` helpers.
* Strings are Lean `String`s; line splitting (`str.splitlines`) is modelled
  with the full set of line boundaries Python splits on (LF, CR, CRLF, VT,
  FF, FS, GS, RS, NEL, LINE SEPARATOR, PARAGRAPH SEPARATOR).
* A non-string `data` value is opaque to the streaming layer except through
  its JSON serialization, so the model carries that serialization
  (the result of `json.dumps(value)`) alongside the string case.
* The generators are modelled as fuel-bounded interpreters that produce the
  trace of externally visible effects (subscribe, get_message pulls, yielded
  chunks, unsubscribe) together with how the generator run ended.
* Time values (the `SSE_TIMEOUT` configuration and the default `15.0`) are
  modelled as rationals.
-/

namespace FlaskSse

/-! ## Python truthiness helpers -/

/-- Truthiness of a str-or-None Python value: `None` and `""` are falsy. -/
def pyTruthyOptStr : Option String → Bool
  | none => false
  | some s => s ≠ ""

/-- Truthiness of an int-or-None Python value: `None` and `0` are falsy. -/
def pyTruthyOptInt : Option Int → Bool
  | none => false
  | some n => n ≠ 0

/-- Truthiness of a bool-or-None Python value: `None` and `False` are falsy. -/
def pyTruthyOptBool : Option Bool → Bool
  | none => false
  | some b => b

/-- Model of the Python expression `x or d` for a str-or-None `x` and a
nonempty default `d` (as in `request.args.get("channel") or "sse"`,
src lines 163 and 274). -/
def pyOrStr (x : Option String) (d : String) : String :=
  match x with
  | none => d
  | some s => if s ≠ "" then s else d

/-! ## Line splitting and joining -/

/-- The characters Python `str.splitlines()` treats as a line boundary:
LF, CR, VT, FF, FS, GS, RS, NEL, LINE SEPARATOR, PARAGRAPH SEPARATOR
(the two-character boundary CRLF is handled by the splitter itself). -/
def isLineBoundary (c : Char) : Bool :=
  c = '\n' || c = '\r' || c = '\u000B' || c = '\u000C' || c = '\u001C' ||
  c = '\u001D' || c = '\u001E' || c = '\u0085' || c = '\u2028' || c = '\u2029'

/-- The splitter behind Python `str.splitlines()`, over character lists:
every line boundary ends a line, CRLF counts as one boundary, the empty
list has no lines, and a trailing boundary does not produce a trailing
empty line. -/
def splitlinesList : List Char → List (List Char)
  | [] => []
  | '\r' :: '\n' :: cs => [] :: splitlinesList cs
  | c :: cs =>
    if isLineBoundary c then [] :: splitlinesList cs
    else
      match splitlinesList cs with
      | [] => [[c]]
      | l :: ls => (c :: l) :: ls

/-- Model of Python `str.splitlines()`. -/
def pySplitlines (s : String) : List String :=
  (splitlinesList s.data).map (fun cs => String.mk cs)

/-- Model of Python `sep.join(xs)`. -/
def pyJoin (sep : String) : List String → String
  | [] => ""
  | [x] => x
  | x :: y :: xs => x ++ sep ++ pyJoin sep (y :: xs)

example : pySplitlines "a\nb" = ["a", "b"] := by decide
example : pySplitlines "a\n" = ["a"] := by decide
example : pySplitlines "" = [] := by decide
example : pySplitlines "a\n\nb" = ["a", "", "b"] := by decide
example : pySplitlines "a\rb" = ["a", "b"] := by decide
example : pySplitlines "a\r\nb" = ["a", "b"] := by decide
example : pySplitlines "a\n\rb" = ["a", "", "b"] := by decide
example : pySplitlines "a\u000bb c" = ["a", "b", "c"] := by decide
example : pySplitlines "a\r\n" = ["a"] := by decide
example : pyJoin "\n" ["x", "y"] = "x\ny" := by decide

/-! ## The Message value type -/

/-- The `data` attribute of a `Message`. A non-string value is opaque to
this module except through its JSON serialization, so the `other` case
carries the string `json.dumps(value)` produces for it. -/
inductive SseData where
  | str (s : String)
  | other (dumps : String)
deriving DecidableEq, Repr

/-- Model of the `Message` class (src lines 14-98): the four constructor
attributes. Equality is structural on the four fields, exactly as
`Message.__eq__` (src lines 91-98). -/
structure Message where
  data : SseData
  type : Option String
  id : Option String
  retry : Option Int
deriving DecidableEq, Repr

/-- The text `Message.__str__` formats: the string itself for string `data`,
`json.dumps(self.data)` otherwise (src lines 60-63). -/
def Message.dataText (m : Message) : String :=
  match m.data with
  | .str s => s
  | .other dumps => dumps

/-- The `lines` list built by `Message.__str__` (src lines 64-70): one
`data:` line per line of the data text, an `event:` line prepended when
`type` is truthy, then `id:` and `retry:` lines appended when truthy. -/
def Message.lines (m : Message) : List String :=
  let ls := (pySplitlines m.dataText).map (fun line => "data:" ++ line)
  let ls := if pyTruthyOptStr m.type then ("event:" ++ m.type.getD "") :: ls else ls
  let ls := if pyTruthyOptStr m.id then ls ++ ["id:" ++ m.id.getD ""] else ls
  let ls := if pyTruthyOptInt m.retry then ls ++ ["retry:" ++ toString (m.retry.getD 0)] else ls
  ls

/-- Model of `Message.__str__` (src lines 55-71): the lines joined with
`"\n"` and terminated by `"\n\n"`. -/
def Message.toWire (m : Message) : String :=
  pyJoin "\n" m.lines ++ "\n\n"

/-- Model of `Message.block` (src lines 49-53), an alias of `str(self)`. -/
def Message.block (m : Message) : String :=
  m.toWire

example :
    Message.toWire ⟨.str "thing", some "example", none, none⟩ =
      "event:example\ndata:thing\n\n" := by decide
example :
    Message.toWire ⟨.str "whee", none, some "abc", none⟩ =
      "data:whee\nid:abc\n\n" := by decide
example :
    Message.toWire ⟨.str "a\rb", none, none, none⟩ =
      "data:a\ndata:b\n\n" := by decide
example :
    Message.lines ⟨.str "a\nb\rc", none, none, none⟩ =
      ["data:a", "data:b", "data:c"] := by decide

/-! ## Transport envelopes (decoded JSON payloads) -/

/-- Exceptions this module raises or handles. -/
inductive PyError where
  | typeError
  | jsonDecodeError
  | connectionError
  | otherErr (name : String)
deriving DecidableEq, Repr

/-- A decoded JSON object payload, restricted to the keys this library ever
reads: the four `Message` keyword fields, the `"sse-control"` key, plus the
names of any other keys present (their values are never read). -/
structure MsgDict where
  dataVal : Option SseData
  typeVal : Option String
  idVal : Option String
  retryVal : Option Int
  sseControl : Option String
  extra : List String
deriving DecidableEq, Repr

/-- An event envelope `{data, type?, id?, retry?}` as a `MsgDict`. -/
def eventDict (d : SseData) (t i : Option String) (r : Option Int) : MsgDict :=
  ⟨some d, t, i, r, none, []⟩

/-- A control envelope `{"sse-control": command}` as a `MsgDict`. -/
def controlDict (command : String) : MsgDict :=
  ⟨none, none, none, none, some command, []⟩

/-- Model of the call `Message(**msg_dict)` (src lines 149 and 255): it
succeeds exactly when every key of the dict is one of the four constructor
parameters and `data` is present; any other key, or a missing `data`, makes
Python raise a `TypeError`. -/
def messageFromDict (d : MsgDict) : Except PyError Message :=
  if d.sseControl.isSome then .error .typeError
  else if d.extra ≠ [] then .error .typeError
  else
    match d.dataVal with
    | none => .error .typeError
    | some v => .ok ⟨v, d.typeVal, d.idVal, d.retryVal⟩

/-- Model of `Message.to_dict` (src lines 35-47): `data` always, each
optional field only when truthy. -/
def Message.to_dict (m : Message) : MsgDict :=
  { dataVal := some m.data
    typeVal := if pyTruthyOptStr m.type then m.type else none
    idVal := if pyTruthyOptStr m.id then m.id else none
    retryVal := if pyTruthyOptInt m.retry then m.retry else none
    sseControl := none
    extra := [] }

/-- One JSON text payload as the pubsub transport delivers it: either it
decodes to a JSON object (a `MsgDict`) or `json.loads` raises. -/
inductive RawPayload where
  | good (d : MsgDict)
  | bad (e : PyError)
deriving DecidableEq, Repr

/-- Model of `json.loads` applied to the payload of the pubsub message (src lines 148 and 252). -/
def jsonLoads : RawPayload → Except PyError MsgDict
  | .good d => .ok d
  | .bad e => .error e

/-! ## Configuration and environment -/

/-- The configuration values the streaming code reads from
`current_app.config`. -/
structure Config where
  sseHealthCheck : Option String
  sseTimeout : Option ℚ
  channelKeyPfx : Option String
deriving DecidableEq, Repr

/-- Model of `done_streaming` (src lines 192-202): `None` when no
`SSE_REDIS_CHANNEL_KEY_PREFIX` is configured, otherwise the negation of
`redis.exists(prefix + channel)`. `keyExists` is the answer the redis call
returns at this moment. -/
def done_streaming (cfg : Config) (keyExists : String → Bool) (channel : String) :
    Option Bool :=
  match cfg.channelKeyPfx with
  | none => none
  | some p => some (! keyExists (p ++ channel))

/-- Number of `redis.exists` calls one `done_streaming` call makes. -/
def existsCalls (cfg : Config) : ℕ :=
  if cfg.channelKeyPfx.isSome then 1 else 0

/-- Result of one `pubsub.get_message(timeout=...)` call. -/
inductive PullResult where
  | timeout
  | notif (kind : String) (payload : RawPayload)
  | raise (e : PyError)
deriving DecidableEq, Repr

/-- Behaviour of the single `pubsub.unsubscribe(channel)` call in the
`finally` block of a generator. -/
inductive UnsubBeh where
  | ok
  | connErr
  | fail (e : PyError)
deriving DecidableEq, Repr

/-- The external world one `blocks` generator run interacts with:
`keyExists n` answers the n-th `redis.exists` call of the run (as a function
of the key queried), `pull k` is the result of the k-th `get_message` call,
`unsubBeh` is what the cleanup `unsubscribe` does, and `budget` is how many
chunks the consumer of the generator consumes before closing it
(`none` = the consumer never closes it early). -/
structure Env where
  keyExists : ℕ → String → Bool
  pull : ℕ → PullResult
  unsubBeh : UnsubBeh
  budget : Option ℕ

/-- Does the consumer close the generator after having consumed `consumed`
chunks in total? -/
def closesAfter (budget : Option ℕ) (consumed : ℕ) : Bool :=
  match budget with
  | none => false
  | some b => b ≤ consumed

/-! ## Effect traces and outcomes -/

/-- Externally visible effects of one `blocks` generator run. -/
inductive Ev where
  | subscribe (channel : String)
  | pull (t : Option ℚ)
  | out (chunk : String)
  | unsubscribe (channel : String)
deriving DecidableEq, Repr

/-- How a generator run ended. -/
inductive LoopExit where
  | done
  | closed
  | raised (e : PyError)
  | fuelOut
deriving DecidableEq, Repr

/-- The `finally` block (src lines 150-154 and 261-265): the unsubscribe is
attempted; a `ConnectionError` it raises is swallowed, and any other
exception it raises replaces the in-flight outcome. -/
def cleanupOutcome (beh : UnsubBeh) (x : LoopExit) : LoopExit :=
  match beh with
  | .ok => x
  | .connErr => x
  | .fail e => .raised e

/-! ## The blocks generator -/

/-- The local `health_check` of `blocks` after formatting (src lines
233-237): `None` stays `None`, a configured text becomes the comment line
`":" + text + "\n"`. -/
def healthCheckText (cfg : Config) : Option String :=
  cfg.sseHealthCheck.map (fun s => ":" ++ s ++ "\n")

/-- The local `timeout` of `blocks` (src lines 239-241), together with the
number of `redis.exists` calls its computation makes (the `or` in line 240
short-circuits, so `done_streaming` only runs when `health_check` is
falsy). -/
def blocksTimeout (cfg : Config) (env : Env) (channel : String) : Option ℚ × ℕ :=
  match cfg.sseTimeout with
  | some t => (some t, 0)
  | none =>
    if pyTruthyOptStr (healthCheckText cfg) then (some 15, 0)
    else if (done_streaming cfg (env.keyExists 0) channel).isSome then
      (some 15, existsCalls cfg)
    else (none, existsCalls cfg)

/-- The dispatch on one delivered pubsub notification inside the `blocks`
loop (src lines 248-260), for a given `health_check` local `hc`:
either the loop yields one chunk, yields nothing, or breaks. -/
inductive NotifAct where
  | skip
  | yieldChunk (c : String)
  | brk
deriving DecidableEq, Repr

/-- Handling of one delivered (non-`None`) pubsub notification by the
`blocks` loop body (src lines 251-260): non-`"message"` kinds are ignored;
a `"message"` payload is decoded, its `"sse-control"` key checked, and then
either formatted as an event block, answered with a health-check chunk,
taken as `disconnect`, or silently discarded. -/
def handleNotif (hc : Option String) (kind : String) (payload : RawPayload) :
    Except PyError NotifAct :=
  if kind = "message" then
    match jsonLoads payload with
    | .error e => .error e
    | .ok d =>
      match d.sseControl with
      | none =>
        match messageFromDict d with
        | .error e => .error e
        | .ok m => .ok (.yieldChunk m.block)
      | some command =>
        if command = "health-check" then
          .ok (if pyTruthyOptStr hc then .yieldChunk (hc.getD "") else .skip)
        else if command = "disconnect" then .ok .brk
        else .ok .skip
  else .ok (.skip)

/-- One fuel-bounded run of the `while not self.done_streaming(channel)`
loop of `blocks` (src lines 246-260). `hc` and `tout` are the locals
computed before the loop; `n` counts the `redis.exists` calls made so far in
the run, `k` the `get_message` calls, and `y` the chunks the consumer has
consumed so far. Returns the trace of effects of the loop and how it
exited. -/
def blocksLoop (cfg : Config) (env : Env) (channel : String)
    (hc : Option String) (tout : Option ℚ) :
    ℕ → ℕ → ℕ → ℕ → List Ev × LoopExit
  | 0, _, _, _ => ([], .fuelOut)
  | fuel + 1, n, k, y =>
    if pyTruthyOptBool (done_streaming cfg (env.keyExists n) channel) then
      ([], .done)
    else
      match env.pull k with
      | .raise e => ([.pull tout], .raised e)
      | .timeout =>
        if pyTruthyOptStr hc then
          if closesAfter env.budget (y + 1) then
            ([.pull tout, .out (hc.getD "")], .closed)
          else
            let r := blocksLoop cfg env channel hc tout fuel
              (n + existsCalls cfg) (k + 1) (y + 1)
            (.pull tout :: .out (hc.getD "") :: r.1, r.2)
        else
          let r := blocksLoop cfg env channel hc tout fuel
            (n + existsCalls cfg) (k + 1) y
          (.pull tout :: r.1, r.2)
      | .notif kind payload =>
        match handleNotif hc kind payload with
        | .error e => ([.pull tout], .raised e)
        | .ok .brk => ([.pull tout], .done)
        | .ok .skip =>
          let r := blocksLoop cfg env channel hc tout fuel
            (n + existsCalls cfg) (k + 1) y
          (.pull tout :: r.1, r.2)
        | .ok (.yieldChunk c) =>
          if closesAfter env.budget (y + 1) then
            ([.pull tout, .out c], .closed)
          else
            let r := blocksLoop cfg env channel hc tout fuel
              (n + existsCalls cfg) (k + 1) (y + 1)
            (.pull tout :: .out c :: r.1, r.2)

/-- The loop part of a full `blocks` run: locals computed as in src lines
233-241, the loop entered with the `redis.exists` call counter already
advanced past the calls the timeout computation made. -/
def blocksLoopRun (cfg : Config) (env : Env) (channel : String) (fuel : ℕ) :
    List Ev × LoopExit :=
  blocksLoop cfg env channel (healthCheckText cfg) (blocksTimeout cfg env channel).1
    fuel (blocksTimeout cfg env channel).2 0 0

/-- One full run of the `blocks` generator (src lines 219-265), as driven by
a consumer that keeps requesting chunks (up to `env.budget`): compute the
locals, subscribe, run the loop, then run the `finally` cleanup. When the
model runs out of fuel the generator is still live, so the trace is
truncated before the cleanup. -/
def runBlocks (cfg : Config) (env : Env) (channel : String) (fuel : ℕ) :
    List Ev × LoopExit :=
  let r := blocksLoopRun cfg env channel fuel
  if r.2 = LoopExit.fuelOut then (Ev.subscribe channel :: r.1, LoopExit.fuelOut)
  else
    (Ev.subscribe channel :: r.1 ++ [Ev.unsubscribe channel],
      cleanupOutcome env.unsubBeh r.2)

/-! ## The base messages generator -/

/-- Result of the next item produced by `pubsub.listen()` (which blocks
until a notification arrives, so there is no timeout case). -/
inductive ListenResult where
  | notif (kind : String) (payload : RawPayload)
  | raise (e : PyError)
deriving DecidableEq, Repr

/-- The external world one `messages` generator run interacts with. -/
structure MEnv where
  listen : ℕ → ListenResult
  unsubBeh : UnsubBeh
  budget : Option ℕ

/-- Externally visible effects of one `messages` generator run; it yields
`Message` objects, not wire text. -/
inductive MEv where
  | subscribe (channel : String)
  | out (m : Message)
  | unsubscribe (channel : String)
deriving DecidableEq, Repr

/-- One fuel-bounded run of the `for pubsub_message in pubsub.listen()` loop
of `messages` (src lines 146-149): non-`"message"` kinds are skipped, a
`"message"` payload is decoded with `json.loads` and passed whole to
`Message(**msg_dict)`, and the resulting object is yielded. -/
def messagesLoop (env : MEnv) : ℕ → ℕ → ℕ → List MEv × LoopExit
  | 0, _, _ => ([], .fuelOut)
  | fuel + 1, k, y =>
    match env.listen k with
    | .raise e => ([], .raised e)
    | .notif kind payload =>
      if kind = "message" then
        match jsonLoads payload with
        | .error e => ([], .raised e)
        | .ok d =>
          match messageFromDict d with
          | .error e => ([], .raised e)
          | .ok m =>
            if closesAfter env.budget (y + 1) then ([.out m], .closed)
            else
              let r := messagesLoop env fuel (k + 1) (y + 1)
              (.out m :: r.1, r.2)
      else
        messagesLoop env fuel (k + 1) y

/-- One full run of the base `messages` generator (src lines 139-154):
subscribe, run the listen loop, then run the `finally` cleanup (identical in
shape to the one of `blocks`). -/
def runMessages (env : MEnv) (channel : String) (fuel : ℕ) :
    List MEv × LoopExit :=
  let r := messagesLoop env fuel 0 0
  if r.2 = LoopExit.fuelOut then (MEv.subscribe channel :: r.1, LoopExit.fuelOut)
  else
    (MEv.subscribe channel :: r.1 ++ [MEv.unsubscribe channel],
      cleanupOutcome env.unsubBeh r.2)

/-! ## The stream view functions -/

/-- The response a `stream` view function returns: either the short-circuit
`Response("", status=204)` (empty body, no session constructed), or a
streamed `text/event-stream` response whose body is the generator run on the
resolved channel. -/
inductive StreamResp where
  | noContent
  | eventStream (channel : String)
deriving DecidableEq, Repr

/-- HTTP status of a `StreamResp` (a flask `Response` defaults to 200). -/
def StreamResp.status : StreamResp → ℕ
  | .noContent => 204
  | .eventStream _ => 200

/-- Model of `ServerSentEventsBlueprint.stream` (src lines 267-290):
resolve the channel from the `channel` query parameter (`channelArg` is
the value of `request.args.get` for the "channel" query parameter), short-circuit with 204 when `done_streaming`
is truthy, otherwise stream `blocks(channel)`. `keyExists` answers the
single `redis.exists` call the pre-check may make. -/
def stream (cfg : Config) (keyExists : String → Bool) (channelArg : Option String) :
    StreamResp :=
  let channel := pyOrStr channelArg "sse"
  if pyTruthyOptBool (done_streaming cfg keyExists channel) then .noContent
  else .eventStream channel

/-- Model of `ServerSentEventsBaseBlueprint.stream` (src lines 156-173):
no termination pre-check, always streams `messages(channel)`. -/
def baseStream (channelArg : Option String) : StreamResp :=
  .eventStream (pyOrStr channelArg "sse")

/-! ## Trace helpers -/

/-- The chunks a `blocks` trace yields. -/
def outsOf (evs : List Ev) : List String :=
  evs.filterMap fun ev =>
    match ev with
    | .out c => some c
    | _ => none

/-- The `Message` objects a `messages` trace yields. -/
def moutsOf (evs : List MEv) : List Message :=
  evs.filterMap fun ev =>
    match ev with
    | .out m => some m
    | _ => none

/-! ## Concrete configurations and environments used by the checks below -/

/-- A configuration with only a termination-key prefix set. -/
def cfgKeyed : Config := ⟨none, none, some "key:"⟩

/-- An environment whose termination key never exists (the Termination
Oracle reports done from the start) and whose transport stays silent. -/
def envDoneEntry : Env :=
  { keyExists := fun _ _ => false
    pull := fun _ => .timeout
    unsubBeh := .ok
    budget := none }

/-- Environment of the repository test `test_messages_control_not_supported`:
every delivered payload is the control envelope with the unrecognized
command `"not-supported"`. -/
def envNotSupported : MEnv :=
  { listen := fun _ => .notif "message" (.good (controlDict "not-supported"))
    unsubBeh := .ok
    budget := none }

/-! ## Sanity checks against test scenarios of the repository -/

/-- Environment of the `test_stream_disconnect` scenario: the first
`get_message` delivers a disconnect control envelope. -/
def envDisconnect : Env :=
  { keyExists := fun _ _ => true
    pull := fun _ => .notif "message" (.good (controlDict "disconnect"))
    unsubBeh := .ok
    budget := none }

example :
    runBlocks ⟨none, none, none⟩ envDisconnect "sse" 5 =
      ([.subscribe "sse", .pull none, .unsubscribe "sse"], .done) := by decide

/-- Environment of the `test_stream` scenario: the first `get_message`
delivers the event envelope for `publish("thing", type="example")`; the
termination key exists for the first check and is gone afterwards. -/
def envThing : Env :=
  { keyExists := fun n _ => decide (n < 2)
    pull := fun _ => .notif "message" (.good (eventDict (.str "thing") (some "example") none none))
    unsubBeh := .ok
    budget := none }

example :
    runBlocks ⟨none, none, some ""⟩ envThing "sse" 5 =
      ([.subscribe "sse", .pull (some 15), .out "event:example\ndata:thing\n\n",
        .unsubscribe "sse"], .done) := by decide

/-! ## Helper lemmas -/

lemma colon_append_ne_empty (s : String) : (":" ++ s ++ "\n" : String) ≠ "" := by
  intro h
  have h2 : (":" ++ s ++ "\n" : String).data = ("" : String).data :=
    congrArg String.data h
  simp only [String.data_append] at h2
  simp at h2

/-- Truthiness of the formatted `health_check` local is exactly whether the
configuration sets `SSE_HEALTH_CHECK` (the formatted text always starts with
a colon and ends with a newline, so it is never empty). -/
lemma healthCheckText_truthy (cfg : Config) :
    pyTruthyOptStr (healthCheckText cfg) = cfg.sseHealthCheck.isSome := by
  cases h : cfg.sseHealthCheck with
  | none => simp [healthCheckText, h, pyTruthyOptStr]
  | some s =>
    simp [healthCheckText, h, pyTruthyOptStr]
    exact colon_append_ne_empty s

/-- Whether `done_streaming` answers at all depends only on the configured
key prefix, never on the state of the key. -/
lemma done_streaming_isSome (cfg : Config) (kx : String → Bool) (ch : String) :
    (done_streaming cfg kx ch).isSome = cfg.channelKeyPfx.isSome := by
  cases h : cfg.channelKeyPfx <;> simp [done_streaming, h]

set_option maxHeartbeats 1600000 in
lemma splitlinesList_no_boundary (cs : List Char) :
    cs ≠ [] → (∀ c ∈ cs, isLineBoundary c = false) → splitlinesList cs = [cs] := by
  induction cs with
  | nil => intro h _; exact absurd rfl h
  | cons c cs ih =>
    intro _ h
    have hc : isLineBoundary c = false := h c (List.mem_cons_self c cs)
    rw [splitlinesList.eq_def]
    split
    · rename_i heq
      exact absurd heq (by simp)
    · simp_all [isLineBoundary]
    · rename_i c' cs' hx heq
      injection heq with h1 h2
      subst h1
      subst h2
      rw [if_neg (by simp [hc])]
      rcases cs with _ | ⟨c2, cs2⟩
      · simp [splitlinesList]
      · rw [ih (by simp) (fun x hx2 => h x (List.mem_cons_of_mem c hx2))]

/-- A nonempty string containing no line boundary splits into the single
line that is the string itself. -/
lemma pySplitlines_single (s : String) (hne : s.data ≠ [])
    (h : ∀ c ∈ s.data, isLineBoundary c = false) : pySplitlines s = [s] := by
  rw [pySplitlines, splitlinesList_no_boundary s.data hne h]
  rfl

/-- Every event in a `blocksLoop` trace is either a pull with the loop
timeout or a yielded chunk: the loop itself never subscribes or
unsubscribes and never pulls with a different timeout. -/
lemma blocksLoop_mem_shape (cfg : Config) (env : Env) (ch : String)
    (hc : Option String) (tout : Option ℚ) :
    ∀ fuel n k y ev, ev ∈ (blocksLoop cfg env ch hc tout fuel n k y).1 →
      ev = Ev.pull tout ∨ ∃ c, ev = Ev.out c := by
  intro fuel
  induction fuel with
  | zero => intro n k y ev h; simp [blocksLoop] at h
  | succ fuel ih =>
    intro n k y ev h
    rw [blocksLoop] at h
    split at h
    · simp at h
    · split at h
      all_goals try split at h
      all_goals try split at h
      all_goals simp at h
      all_goals
        first
        | exact Or.inl h
        | exact Or.inr ⟨_, h⟩
        | exact ih _ _ _ _ h
        | (rcases h with h | h <;>
            first
            | exact Or.inl h
            | exact Or.inr ⟨_, h⟩
            | exact ih _ _ _ _ h
            | (rcases h with h | h <;>
                first
                | exact Or.inl h
                | exact Or.inr ⟨_, h⟩
                | exact ih _ _ _ _ h))

/-- Every event in a `messagesLoop` trace is a yielded `Message`: the loop
itself never subscribes or unsubscribes. -/
lemma messagesLoop_mem_shape (env : MEnv) :
    ∀ fuel k y ev, ev ∈ (messagesLoop env fuel k y).1 → ∃ m, ev = MEv.out m := by
  intro fuel
  induction fuel with
  | zero => intro k y ev h; simp [messagesLoop] at h
  | succ fuel ih =>
    intro k y ev h
    rw [messagesLoop] at h
    split at h
    · simp at h
    · split at h
      all_goals try split at h
      all_goals try split at h
      all_goals try split at h
      all_goals try simp at h
      all_goals
        first
        | exact ⟨_, h⟩
        | exact ih _ _ _ h
        | (rcases h with h | h <;>
            first
            | exact ⟨_, h⟩
            | exact ih _ _ _ h)

/-- The loop exit is `fuelOut` exactly when the whole `blocks` run reports
`fuelOut` (the cleanup never produces a `fuelOut`). -/
lemma runBlocks_fuelOut_iff (cfg : Config) (env : Env) (ch : String) (fuel : ℕ) :
    (runBlocks cfg env ch fuel).2 = .fuelOut ↔
      (blocksLoopRun cfg env ch fuel).2 = .fuelOut := by
  by_cases h : (blocksLoopRun cfg env ch fuel).2 = LoopExit.fuelOut
  · simp [runBlocks, h]
  · simp only [runBlocks, if_neg h]
    constructor
    · intro h2
      cases hb : env.unsubBeh <;>
        rw [hb] at h2 <;> simp [cleanupOutcome] at h2
      · exact absurd h2 h
      · exact absurd h2 h
    · intro h2
      exact absurd h2 h

/-- Decomposition of a `blocks` run that did not run out of fuel:
subscribe, the loop trace, then exactly one unsubscribe, with the outcome
given by the cleanup applied to the loop own exit. -/
lemma runBlocks_decomp (cfg : Config) (env : Env) (ch : String) (fuel : ℕ)
    (h : (blocksLoopRun cfg env ch fuel).2 ≠ .fuelOut) :
    runBlocks cfg env ch fuel =
      (Ev.subscribe ch :: (blocksLoopRun cfg env ch fuel).1 ++ [Ev.unsubscribe ch],
        cleanupOutcome env.unsubBeh (blocksLoopRun cfg env ch fuel).2) := by
  simp [runBlocks, h]

/-- Decomposition of a `messages` run that did not run out of fuel. -/
lemma runMessages_decomp (env : MEnv) (ch : String) (fuel : ℕ)
    (h : (messagesLoop env fuel 0 0).2 ≠ .fuelOut) :
    runMessages env ch fuel =
      (MEv.subscribe ch :: (messagesLoop env fuel 0 0).1 ++ [MEv.unsubscribe ch],
        cleanupOutcome env.unsubBeh (messagesLoop env fuel 0 0).2) := by
  simp [runMessages, h]

/-- The loop exit is `fuelOut` exactly when the whole `messages` run
reports `fuelOut`. -/
lemma runMessages_fuelOut_iff (env : MEnv) (ch : String) (fuel : ℕ) :
    (runMessages env ch fuel).2 = .fuelOut ↔
      (messagesLoop env fuel 0 0).2 = .fuelOut := by
  by_cases h : (messagesLoop env fuel 0 0).2 = LoopExit.fuelOut
  · simp [runMessages, h]
  · simp only [runMessages, if_neg h]
    constructor
    · intro h2
      cases hb : env.unsubBeh <;>
        rw [hb] at h2 <;> simp [cleanupOutcome] at h2
      · exact absurd h2 h
      · exact absurd h2 h
    · intro h2
      exact absurd h2 h

/-! ## Claim C3: envelope round-trip -/

/-- C3 counterexample: an Event whose `type` is set to the empty string does
not survive the round-trip `Message(**e.to_dict())`: `to_dict` omits the
falsy field, so the reconstructed Event has `type = None`, which
`Message.__eq__` distinguishes from `type = ""`. -/
theorem c3_counterexample :
    messageFromDict (Message.to_dict ⟨.str "x", some "", none, none⟩) =
      Except.ok (⟨.str "x", none, none, none⟩ : Message) ∧
    (⟨.str "x", none, none, none⟩ : Message) ≠ ⟨.str "x", some "", none, none⟩ :=
  ⟨rfl, by decide⟩

/-- C3 (amended): for every Event whose set optional fields are truthy
(`type` and `id` not set to the empty string, `retry` not set to zero),
decoding the transport envelope produced by `to_dict` yields an Event
structurally equal to the original: `Message(**e.to_dict()) == e`. -/
theorem c3_roundtrip (m : Message)
    (ht : m.type ≠ some "") (hi : m.id ≠ some "") (hr : m.retry ≠ some 0) :
    messageFromDict m.to_dict = Except.ok m := by
  obtain ⟨d, t, i, r⟩ := m
  cases t <;> cases i <;> cases r <;>
    simp_all [Message.to_dict, messageFromDict, pyTruthyOptStr, pyTruthyOptInt]

/-- C3 witness: the round-trip at a concrete Event with all fields set. -/
theorem c3_witness :
    messageFromDict (Message.to_dict ⟨.str "a", some "t", some "i", some 7⟩) =
      Except.ok (⟨.str "a", some "t", some "i", some 7⟩ : Message) :=
  c3_roundtrip ⟨.str "a", some "t", some "i", some 7⟩ (by decide) (by decide) (by decide)

/-! ## Claim C4: wire format of a data-only Event -/

/-- C4 counterexample: the Event whose `data` is the empty string is built
with only `data` set, but its wire text is `"\n\n"`, with no `data:` line at
all (Python `"".splitlines()` is empty), not `"data:\n\n"`. -/
theorem c4_counterexample :
    Message.toWire ⟨.str "", none, none, none⟩ = "\n\n" ∧
    Message.toWire ⟨.str "", none, none, none⟩ ≠ "data:" ++ "" ++ "\n\n" := by
  decide

/-- C4 (amended): for every Event with only `data` set whose wire value (the
string itself, or the JSON serialization of a non-string value) is nonempty
and free of line-boundary characters (newline, carriage return, and the
rest of the `str.splitlines` boundaries), the formatted text is exactly
`"data:" ++ value ++ "\n\n"` — one data line, a blank-line terminator, and
hence no `event:`, `id:` or `retry:` lines. -/
theorem c4_only_data (d : SseData)
    (hne : (Message.dataText ⟨d, none, none, none⟩).data ≠ [])
    (hnl : ∀ c ∈ (Message.dataText ⟨d, none, none, none⟩).data,
      isLineBoundary c = false) :
    Message.toWire ⟨d, none, none, none⟩ =
      "data:" ++ Message.dataText ⟨d, none, none, none⟩ ++ "\n\n" := by
  have hs := pySplitlines_single _ hne hnl
  simp [Message.toWire, Message.lines, pyTruthyOptStr, pyTruthyOptInt, hs, pyJoin]

/-- C4 witness: the amended statement at the concrete Event
`Message("hello")`. -/
theorem c4_witness :
    Message.toWire ⟨.str "hello", none, none, none⟩ =
      "data:" ++ Message.dataText ⟨.str "hello", none, none, none⟩ ++ "\n\n" :=
  c4_only_data (.str "hello") (by decide) (by decide)

/-! ## Claim C9: multi-line data -/

/-- C9: for every Event with only a multi-line string `data` set (a string
containing a line boundary), the `lines` list `__str__` builds contains
exactly one `data:` line per source line of the string, in source order,
and the wire block is those lines joined with `"\n"` and terminated by
`"\n\n"`. -/
theorem c9_multiline (s : String)
    (_hml : ∃ c ∈ s.data, isLineBoundary c = true) :
    Message.lines ⟨.str s, none, none, none⟩ =
      (pySplitlines s).map (fun line => "data:" ++ line) ∧
    Message.toWire ⟨.str s, none, none, none⟩ =
      pyJoin "\n" ((pySplitlines s).map (fun line => "data:" ++ line)) ++ "\n\n" := by
  refine ⟨?_, ?_⟩ <;>
    simp [Message.lines, Message.toWire, Message.dataText, pyTruthyOptStr,
      pyTruthyOptInt]

/-- C9 witness: the statement at the concrete two-line string. -/
theorem c9_witness :
    Message.lines ⟨.str "a\nb", none, none, none⟩ =
      (pySplitlines "a\nb").map (fun line => "data:" ++ line) ∧
    Message.toWire ⟨.str "a\nb", none, none, none⟩ =
      pyJoin "\n" ((pySplitlines "a\nb").map (fun line => "data:" ++ line)) ++ "\n\n" :=
  c9_multiline "a\nb" (by decide)

/-! ## Claim C7: pull timeout selection -/

/-- C7: the pull timeout of `blocks` is the configured `SSE_TIMEOUT` when it
is set; otherwise `15.0` when `SSE_HEALTH_CHECK` is configured or the
termination-key prefix is configured; otherwise no timeout at all. Every
`get_message` call of a `blocks` run uses exactly this timeout. -/
theorem c7_timeout (cfg : Config) (env : Env) (ch : String) :
    (∀ t, cfg.sseTimeout = some t → (blocksTimeout cfg env ch).1 = some t) ∧
    (cfg.sseTimeout = none →
      (cfg.sseHealthCheck.isSome ∨ cfg.channelKeyPfx.isSome) →
      (blocksTimeout cfg env ch).1 = some 15) ∧
    (cfg.sseTimeout = none → cfg.sseHealthCheck = none →
      cfg.channelKeyPfx = none → (blocksTimeout cfg env ch).1 = none) ∧
    (∀ fuel t, Ev.pull t ∈ (runBlocks cfg env ch fuel).1 →
      t = (blocksTimeout cfg env ch).1) := by
  have key : ∀ fuel t, Ev.pull t ∈ (blocksLoopRun cfg env ch fuel).1 →
      t = (blocksTimeout cfg env ch).1 := by
    intro fuel t hmem
    rcases blocksLoop_mem_shape cfg env ch (healthCheckText cfg)
        (blocksTimeout cfg env ch).1 fuel (blocksTimeout cfg env ch).2 0 0
        (Ev.pull t) hmem with h1 | ⟨c, h2⟩
    · exact Ev.pull.inj h1
    · exact absurd h2 (by simp)
  refine ⟨?_, ?_, ?_, ?_⟩
  · intro t ht
    simp [blocksTimeout, ht]
  · intro ht hor
    rcases hhc : cfg.sseHealthCheck with _ | text
    · rcases hor with h1 | h2
      · rw [hhc] at h1; simp at h1
      · simp [blocksTimeout, ht, healthCheckText_truthy, hhc,
          done_streaming_isSome, h2]
    · simp [blocksTimeout, ht, healthCheckText_truthy, hhc]
  · intro ht hhc hpfx
    simp [blocksTimeout, ht, healthCheckText_truthy, hhc,
      done_streaming_isSome, hpfx]
  · intro fuel t hmem
    by_cases hf : (blocksLoopRun cfg env ch fuel).2 = LoopExit.fuelOut
    · have hrun : runBlocks cfg env ch fuel =
          (Ev.subscribe ch :: (blocksLoopRun cfg env ch fuel).1, LoopExit.fuelOut) := by
        simp [runBlocks, hf]
      rw [hrun] at hmem
      simp only [List.mem_cons] at hmem
      rcases hmem with h1 | h1
      · exact absurd h1 (by simp)
      · exact key fuel t h1
    · rw [runBlocks_decomp cfg env ch fuel hf] at hmem
      simp only [List.mem_cons, List.mem_append, List.mem_singleton, or_assoc] at hmem
      rcases hmem with h1 | h1 | h1
      · exact absurd h1 (by simp)
      · exact key fuel t h1
      · exact absurd h1 (by simp)

/-- C7 witness: with only `SSE_HEALTH_CHECK` configured, the selected pull
timeout is the default 15 time units. -/
theorem c7_witness :
    (blocksTimeout ⟨some "HC", none, none⟩ envDoneEntry "sse").1 = some 15 :=
  (c7_timeout ⟨some "HC", none, none⟩ envDoneEntry "sse").2.1 rfl (Or.inl rfl)

/-! ## Claim C8: health-check control envelope -/

/-- C8: a received `sse-control: health-check` envelope makes the `blocks`
loop yield exactly one chunk, the comment line `":" ++ text ++ "\n"` for the
configured text, when `SSE_HEALTH_CHECK` is configured, and yield nothing
when it is not; in both cases the loop continues. Stated both for the
dispatch function and for a full loop step. -/
theorem c8_health_check_control (cfg : Config) (d : MsgDict)
    (hcmd : d.sseControl = some "health-check") :
    (∀ text, cfg.sseHealthCheck = some text →
      handleNotif (healthCheckText cfg) "message" (.good d) =
        Except.ok (.yieldChunk (":" ++ text ++ "\n"))) ∧
    (cfg.sseHealthCheck = none →
      handleNotif (healthCheckText cfg) "message" (.good d) = Except.ok .skip) ∧
    (∀ env ch tout fuel n k y text,
      cfg.sseHealthCheck = some text → env.budget = none →
      pyTruthyOptBool (done_streaming cfg (env.keyExists n) ch) = false →
      env.pull k = .notif "message" (.good d) →
      blocksLoop cfg env ch (healthCheckText cfg) tout (fuel + 1) n k y =
        (Ev.pull tout :: Ev.out (":" ++ text ++ "\n") ::
            (blocksLoop cfg env ch (healthCheckText cfg) tout fuel
              (n + existsCalls cfg) (k + 1) (y + 1)).1,
          (blocksLoop cfg env ch (healthCheckText cfg) tout fuel
            (n + existsCalls cfg) (k + 1) (y + 1)).2)) ∧
    (∀ env ch tout fuel n k y,
      cfg.sseHealthCheck = none → env.budget = none →
      pyTruthyOptBool (done_streaming cfg (env.keyExists n) ch) = false →
      env.pull k = .notif "message" (.good d) →
      blocksLoop cfg env ch (healthCheckText cfg) tout (fuel + 1) n k y =
        (Ev.pull tout ::
            (blocksLoop cfg env ch (healthCheckText cfg) tout fuel
              (n + existsCalls cfg) (k + 1) y).1,
          (blocksLoop cfg env ch (healthCheckText cfg) tout fuel
            (n + existsCalls cfg) (k + 1) y).2)) := by
  refine ⟨?_, ?_, ?_, ?_⟩
  · intro text hhc
    simp [handleNotif, jsonLoads, hcmd, healthCheckText, hhc, pyTruthyOptStr,
      colon_append_ne_empty text]
  · intro hhc
    simp [handleNotif, jsonLoads, hcmd, healthCheckText, hhc, pyTruthyOptStr]
  · intro env ch tout fuel n k y text hhc hbud hdone hpull
    have hact : handleNotif (healthCheckText cfg) "message" (.good d) =
        Except.ok (.yieldChunk (":" ++ text ++ "\n")) := by
      simp [handleNotif, jsonLoads, hcmd, healthCheckText, hhc, pyTruthyOptStr,
        colon_append_ne_empty text]
    rw [blocksLoop, if_neg (by simp [hdone]), hpull]
    simp [hact, closesAfter, hbud]
  · intro env ch tout fuel n k y hhc hbud hdone hpull
    have hact : handleNotif (healthCheckText cfg) "message" (.good d) =
        Except.ok NotifAct.skip := by
      simp [handleNotif, jsonLoads, hcmd, healthCheckText, hhc, pyTruthyOptStr]
    rw [blocksLoop, if_neg (by simp [hdone]), hpull]
    simp [hact]

/-- C8 witness: the dispatch at the concrete configuration `"HC"` and at the
unset configuration, at the concrete control envelope. -/
theorem c8_witness :
    handleNotif (healthCheckText ⟨some "HC", none, none⟩) "message"
        (.good (controlDict "health-check")) =
      Except.ok (.yieldChunk (":" ++ "HC" ++ "\n")) ∧
    handleNotif (healthCheckText ⟨none, none, none⟩) "message"
        (.good (controlDict "health-check")) = Except.ok .skip :=
  ⟨(c8_health_check_control ⟨some "HC", none, none⟩ (controlDict "health-check")
      rfl).1 "HC" rfl,
    (c8_health_check_control ⟨none, none, none⟩ (controlDict "health-check")
      rfl).2.1 rfl⟩

/-! ## Claim C2: unrecognized control commands -/

/-- C2: in the `blocks` generator an unrecognized control command is
silently discarded (no output, no error) and the loop continues with the
next message; but in the base `messages` generator the claim fails: any
control envelope reaches `Message(**msg_dict)`, which raises a `TypeError`
that terminates the generator — shown here at the failing input of the
own test of the repository, `test_messages_control_not_supported`. -/
theorem c2_unrecognized_control :
    (∀ hc d command, d.sseControl = some command →
      command ≠ "disconnect" → command ≠ "health-check" →
      handleNotif hc "message" (.good d) = Except.ok .skip) ∧
    (∀ cfg env ch hc tout fuel n k y d command,
      pyTruthyOptBool (done_streaming cfg (env.keyExists n) ch) = false →
      env.pull k = .notif "message" (.good d) →
      d.sseControl = some command →
      command ≠ "disconnect" → command ≠ "health-check" →
      blocksLoop cfg env ch hc tout (fuel + 1) n k y =
        (Ev.pull tout ::
            (blocksLoop cfg env ch hc tout fuel (n + existsCalls cfg) (k + 1) y).1,
          (blocksLoop cfg env ch hc tout fuel (n + existsCalls cfg) (k + 1) y).2)) ∧
    runMessages envNotSupported "whee" 3 =
      ([MEv.subscribe "whee", MEv.unsubscribe "whee"], .raised .typeError) := by
  have hskip : ∀ hc d command, d.sseControl = some command →
      command ≠ "disconnect" → command ≠ "health-check" →
      handleNotif hc "message" (.good d) = Except.ok .skip := by
    intro hc d command hcmd hd hh
    simp [handleNotif, jsonLoads, hcmd, hd, hh]
  refine ⟨hskip, ?_, by decide⟩
  intro cfg env ch hc tout fuel n k y d command hdone hpull hcmd hd hh
  rw [blocksLoop, if_neg (by simp [hdone]), hpull]
  simp [hskip hc d command hcmd hd hh]

/-- C2 witness: the dispatch at the concrete unrecognized command. -/
theorem c2_witness :
    handleNotif none "message" (.good (controlDict "not-supported")) =
      Except.ok .skip :=
  c2_unrecognized_control.1 none (controlDict "not-supported") "not-supported"
    rfl (by decide) (by decide)

/-! ## Claim C5: disconnect control envelope -/

/-- C5: a received `sse-control: disconnect` envelope terminates the
`blocks` generator: the dispatch yields no output and breaks, the loop
produces no chunk for that message and nothing afterwards, and a full run
whose first pull delivers it subscribes, pulls once, yields nothing and
unsubscribes exactly once. -/
theorem c5_disconnect :
    (∀ hc d, d.sseControl = some "disconnect" →
      handleNotif hc "message" (.good d) = Except.ok .brk) ∧
    (∀ cfg env ch hc tout fuel n k y d,
      pyTruthyOptBool (done_streaming cfg (env.keyExists n) ch) = false →
      env.pull k = .notif "message" (.good d) →
      d.sseControl = some "disconnect" →
      blocksLoop cfg env ch hc tout (fuel + 1) n k y = ([Ev.pull tout], .done)) ∧
    (∀ cfg env ch fuel d,
      pyTruthyOptBool (done_streaming cfg
        (env.keyExists (blocksTimeout cfg env ch).2) ch) = false →
      env.pull 0 = .notif "message" (.good d) →
      d.sseControl = some "disconnect" →
      runBlocks cfg env ch (fuel + 1) =
        ([Ev.subscribe ch, Ev.pull (blocksTimeout cfg env ch).1,
            Ev.unsubscribe ch],
          cleanupOutcome env.unsubBeh .done)) := by
  have hbrk : ∀ hc d, d.sseControl = some "disconnect" →
      handleNotif hc "message" (.good d) = Except.ok .brk := by
    intro hc d hcmd
    simp [handleNotif, jsonLoads, hcmd]
  have hloop : ∀ cfg env ch hc tout fuel n k y d,
      pyTruthyOptBool (done_streaming cfg (env.keyExists n) ch) = false →
      env.pull k = .notif "message" (.good d) →
      d.sseControl = some "disconnect" →
      blocksLoop cfg env ch hc tout (fuel + 1) n k y = ([Ev.pull tout], .done) := by
    intro cfg env ch hc tout fuel n k y d hdone hpull hcmd
    rw [blocksLoop, if_neg (by simp [hdone]), hpull]
    simp [hbrk hc d hcmd]
  refine ⟨hbrk, hloop, ?_⟩
  intro cfg env ch fuel d hdone hpull hcmd
  have hrun : blocksLoopRun cfg env ch (fuel + 1) =
      ([Ev.pull (blocksTimeout cfg env ch).1], .done) :=
    hloop cfg env ch (healthCheckText cfg) (blocksTimeout cfg env ch).1 fuel
      (blocksTimeout cfg env ch).2 0 0 d hdone hpull hcmd
  rw [runBlocks_decomp cfg env ch (fuel + 1) (by rw [hrun]; simp), hrun]
  simp

/-- C5 witness: the full-run statement at the environment of the repository
test `test_stream_disconnect`. -/
theorem c5_witness :
    runBlocks ⟨none, none, none⟩ envDisconnect "sse" 5 =
      ([Ev.subscribe "sse",
          Ev.pull (blocksTimeout ⟨none, none, none⟩ envDisconnect "sse").1,
          Ev.unsubscribe "sse"],
        cleanupOutcome envDisconnect.unsubBeh .done) :=
  c5_disconnect.2.2 ⟨none, none, none⟩ envDisconnect "sse" 4
    (controlDict "disconnect") (by decide) (by decide) rfl

/-! ## Claim C6: unsubscribe on every exit path -/

/-- C6: every `blocks` or `messages` generator run that ends — by the
Termination Oracle, a disconnect, an error raised during pull or decode, or
an early close by the consumer — attempts the unsubscribe for its channel
exactly once; a `ConnectionError` raised by that unsubscribe is swallowed
(the run keeps the loop own exit), while any other cleanup error replaces
the outcome and propagates. -/
theorem c6_unsubscribe_on_exit :
    (∀ cfg env ch fuel, (runBlocks cfg env ch fuel).2 ≠ .fuelOut →
      (runBlocks cfg env ch fuel).1.count (Ev.unsubscribe ch) = 1 ∧
      ((env.unsubBeh = .ok ∨ env.unsubBeh = .connErr) →
        (runBlocks cfg env ch fuel).2 = (blocksLoopRun cfg env ch fuel).2) ∧
      (∀ e, env.unsubBeh = .fail e → (runBlocks cfg env ch fuel).2 = .raised e)) ∧
    (∀ env ch fuel, (runMessages env ch fuel).2 ≠ .fuelOut →
      (runMessages env ch fuel).1.count (MEv.unsubscribe ch) = 1 ∧
      ((env.unsubBeh = .ok ∨ env.unsubBeh = .connErr) →
        (runMessages env ch fuel).2 = (messagesLoop env fuel 0 0).2) ∧
      (∀ e, env.unsubBeh = .fail e → (runMessages env ch fuel).2 = .raised e)) := by
  constructor
  · intro cfg env ch fuel h
    have hl : (blocksLoopRun cfg env ch fuel).2 ≠ LoopExit.fuelOut :=
      fun hx => h ((runBlocks_fuelOut_iff cfg env ch fuel).mpr hx)
    have hno : Ev.unsubscribe ch ∉ (blocksLoopRun cfg env ch fuel).1 := by
      intro hmem
      rcases blocksLoop_mem_shape cfg env ch (healthCheckText cfg)
          (blocksTimeout cfg env ch).1 fuel (blocksTimeout cfg env ch).2 0 0
          (Ev.unsubscribe ch) hmem with h1 | ⟨c, h2⟩
      · exact absurd h1 (by simp)
      · exact absurd h2 (by simp)
    refine ⟨?_, ?_, ?_⟩
    · rw [runBlocks_decomp cfg env ch fuel hl]
      simp [List.count_cons, List.count_append,
        List.count_eq_zero_of_not_mem hno]
    · intro hbeh
      rw [runBlocks_decomp cfg env ch fuel hl]
      rcases hbeh with hb | hb <;> simp [cleanupOutcome, hb]
    · intro e hbeh
      rw [runBlocks_decomp cfg env ch fuel hl]
      simp [cleanupOutcome, hbeh]
  · intro env ch fuel h
    have hl : (messagesLoop env fuel 0 0).2 ≠ LoopExit.fuelOut :=
      fun hx => h ((runMessages_fuelOut_iff env ch fuel).mpr hx)
    have hno : MEv.unsubscribe ch ∉ (messagesLoop env fuel 0 0).1 := by
      intro hmem
      rcases messagesLoop_mem_shape env fuel 0 0 (MEv.unsubscribe ch) hmem with
        ⟨m, h1⟩
      exact absurd h1 (by simp)
    refine ⟨?_, ?_, ?_⟩
    · rw [runMessages_decomp env ch fuel hl]
      simp [List.count_cons, List.count_append,
        List.count_eq_zero_of_not_mem hno]
    · intro hbeh
      rw [runMessages_decomp env ch fuel hl]
      rcases hbeh with hb | hb <;> simp [cleanupOutcome, hb]
    · intro e hbeh
      rw [runMessages_decomp env ch fuel hl]
      simp [cleanupOutcome, hbeh]

/-- C6 witness: the unsubscribe count at the disconnect scenario run. -/
theorem c6_witness :
    (runBlocks ⟨none, none, none⟩ envDisconnect "sse" 5).1.count
      (Ev.unsubscribe "sse") = 1 :=
  (c6_unsubscribe_on_exit.1 ⟨none, none, none⟩ envDisconnect "sse" 5
    (by decide)).1

/-! ## Claim C1: termination reported done at entry -/

/-- C1 counterexample: with the Termination Oracle reporting done from the
start, a `blocks` session run directly still subscribes to the transport
channel before its first loop check (and then immediately unsubscribes),
refuting the claim that such a session "does not subscribe at all". -/
theorem c1_counterexample :
    pyTruthyOptBool (done_streaming cfgKeyed
      (envDoneEntry.keyExists (blocksTimeout cfgKeyed envDoneEntry "sse").2)
      "sse") = true ∧
    runBlocks cfgKeyed envDoneEntry "sse" 5 =
      ([Ev.subscribe "sse", Ev.unsubscribe "sse"], .done) ∧
    Ev.subscribe "sse" ∈ (runBlocks cfgKeyed envDoneEntry "sse" 5).1 := by
  decide

/-- C1 (amended): when the Termination Oracle reports done at entry, the
stream endpoint responds immediately with status 204 and an empty body,
never constructing a session; a `blocks` session whose first loop check
reports done yields nothing and never pulls a message, but it does
subscribe once and then unsubscribe once (rather than never subscribing). -/
theorem c1_done_at_entry :
    (∀ cfg kx chArg,
      pyTruthyOptBool (done_streaming cfg kx (pyOrStr chArg "sse")) = true →
      stream cfg kx chArg = .noContent ∧ (stream cfg kx chArg).status = 204) ∧
    (∀ cfg env ch fuel,
      pyTruthyOptBool (done_streaming cfg
        (env.keyExists (blocksTimeout cfg env ch).2) ch) = true →
      runBlocks cfg env ch (fuel + 1) =
        ([Ev.subscribe ch, Ev.unsubscribe ch],
          cleanupOutcome env.unsubBeh .done)) := by
  constructor
  · intro cfg kx chArg hdone
    constructor
    · simp [stream, hdone]
    · simp [stream, hdone, StreamResp.status]
  · intro cfg env ch fuel hdone
    have hrun : blocksLoopRun cfg env ch (fuel + 1) = ([], .done) := by
      rw [blocksLoopRun, blocksLoop, if_pos hdone]
    rw [runBlocks_decomp cfg env ch (fuel + 1) (by rw [hrun]; simp), hrun]
    simp

/-- C1 witness: both amended statements at concrete inputs where the Oracle
reports done at entry. -/
theorem c1_witness :
    stream cfgKeyed (fun _ => false) none = .noContent ∧
    runBlocks cfgKeyed envDoneEntry "sse" 4 =
      ([Ev.subscribe "sse", Ev.unsubscribe "sse"],
        cleanupOutcome envDoneEntry.unsubBeh .done) :=
  ⟨(c1_done_at_entry.1 cfgKeyed (fun _ => false) none (by decide)).1,
    c1_done_at_entry.2 cfgKeyed envDoneEntry "sse" 3 (by decide)⟩

/-! ## Claim C10: empty channel query parameter -/

/-- C10: a `channel` query parameter present but equal to the empty string
is falsy, so `request.args.get` followed by `or "sse"` resolves it exactly like
an absent parameter: both stream endpoints behave identically on the two
requests and use the default channel `"sse"`, and a `blocks` run on that
channel subscribes to `"sse"`. -/
theorem c10_empty_channel :
    (pyOrStr (some "") "sse" = "sse" ∧ pyOrStr none "sse" = "sse") ∧
    (∀ cfg kx, stream cfg kx (some "") = stream cfg kx none) ∧
    baseStream (some "") = baseStream none ∧
    (∀ cfg kx, pyTruthyOptBool (done_streaming cfg kx "sse") = false →
      stream cfg kx (some "") = .eventStream "sse") ∧
    (∀ cfg env fuel,
      (runBlocks cfg env "sse" fuel).1.head? = some (.subscribe "sse")) := by
  refine ⟨⟨rfl, rfl⟩, ?_, rfl, ?_, ?_⟩
  · intro cfg kx
    rfl
  · intro cfg kx hdone
    simp [stream, pyOrStr, hdone]
  · intro cfg env fuel
    by_cases hf : (blocksLoopRun cfg env "sse" fuel).2 = LoopExit.fuelOut <;>
      simp [runBlocks, hf]

/-- C10 witness: the endpoint at an empty channel parameter with the Oracle
not reporting done streams the default channel. -/
theorem c10_witness :
    stream ⟨none, none, none⟩ (fun _ => false) (some "") = .eventStream "sse" :=
  (c10_empty_channel.2.2.2.1 ⟨none, none, none⟩ (fun _ => false) (by decide))

end FlaskSse
